import Mathlib

/-!
Verification of the tetratelabs/log scoped-logging package.

The development shallowly embeds the Go sources: `Level` and `AsLevel`
(level.go), the `Logger` value with its copy-on-write derivation chain and
emission gates (logger.go), the two line formatters (`structuredLog` in
logger.go, `unstructuredLog` in unstructured.go) and the process-wide
registry (registry.go).  Go `interface` values appearing in key-value
sequences are embedded as `GoVal`; Go side effects (the shared `*int32`
level cell, metric recording, sink writes) are threaded through an explicit
`World` state.  A Go panic is embedded as the `Except.error` branch carrying
the panic text and the state at the point of the panic.
-/

namespace Tlog

/-- A Go `interface` value in a key-value list: either a `string`, or any
other value carried together with its `fmt` `%v` rendering. -/
inductive GoVal where
  | str (s : String)
  | other (rendered : String)
  deriving DecidableEq, Repr

/-- Embedding of level.go: `type Level int32` with the four enum constants
`LevelNone = 0`, `LevelError = 1`, `LevelInfo = 2`, `LevelDebug = 3`. -/
inductive Level where
  | none
  | error
  | info
  | debug
  deriving DecidableEq, Repr

def LevelNone : Level := Level.none

def LevelError : Level := Level.error

def LevelInfo : Level := Level.info

def LevelDebug : Level := Level.debug

/-- The underlying `int32` value of each `Level` constant. -/
def Level.toNat : Level → Nat
  | .none => 0
  | .error => 1
  | .info => 2
  | .debug => 3

/-- Go integer comparison `a <= b` on `Level` (used by `Logger.enabled`). -/
def Level.le (a b : Level) : Bool := a.toNat ≤ b.toNat

/-- `Level.String`: the `levelToString` map of level.go. -/
def Level.toString : Level → String
  | .none => "none"
  | .error => "error"
  | .info => "info"
  | .debug => "debug"

/-- `AsLevel`: lookup in the `stringToLevel` map of level.go.  A Go map miss
yields the zero value (`LevelNone`) together with `ok = false`. -/
def AsLevel (level : String) : Level × Bool :=
  if level = "none" then (Level.none, true)
  else if level = "error" then (Level.error, true)
  else if level = "info" then (Level.info, true)
  else if level = "debug" then (Level.debug, true)
  else (Level.none, false)

/-- `fmt` `%02d`: decimal, zero-padded to two digits. -/
def pad2 (n : Nat) : String :=
  if n < 10 then "0" ++ Nat.repr n else Nat.repr n

/-- `fmt` `%-5v` / `%-10s`: left-justify in a field of width `w` by padding
with spaces on the right. -/
def padRight (s : String) (w : Nat) : String :=
  s ++ String.mk (List.replicate (w - s.length) ' ')

/-- `fmt` `%q` on a `string`: double-quote, escaping backslash and quote. -/
def goQuote (s : String) : String :=
  "\"" ++ String.join (s.toList.map fun c =>
    if c = '"' then "\\\""
    else if c = '\\' then "\\\\"
    else String.mk [c]) ++ "\""

/-- How `writeKeyValue` renders a value: `%q` when it is a `string`,
`%v` otherwise. -/
def renderVal : GoVal → String
  | .str v => goQuote v
  | .other r => r

/-- `%s`/`%v` rendering of a `GoVal` inside `fmt.Sprintf`. -/
def goVerb : GoVal → String
  | .str s => s
  | .other r => r

/-- Modelled from the platform library: the core of Go `fmt.Sprintf`
restricted to the conversions this repository feeds it (`%s`, `%v`, `%q`
and `%%`); a verb with no remaining argument degrades to the
`%!x(MISSING)` marker and never fails, exactly as `fmt` does. -/
def sprintfAux : List Char → List GoVal → List Char × List GoVal
  | [], args => ([], args)
  | ['%'], args => (['%'], args)
  | '%' :: c :: rest, args =>
    if c = '%' then
      let r := sprintfAux rest args
      ('%' :: r.1, r.2)
    else if c = 's' ∨ c = 'v' ∨ c = 'q' then
      match args with
      | [] =>
        let r := sprintfAux rest []
        ("%!".toList ++ [c] ++ "(MISSING)".toList ++ r.1, r.2)
      | a :: args' =>
        let r := sprintfAux rest args'
        ((if c = 'q' then goQuote (goVerb a) else goVerb a).toList ++ r.1, r.2)
    else
      let r := sprintfAux rest args
      ('%' :: c :: r.1, r.2)
  | c :: rest, args =>
    let r := sprintfAux rest args
    (c :: r.1, r.2)

/-- Go `fmt.Sprintf(format, args...)`; arguments left over after the format
string is exhausted are reported with the `%!(EXTRA ...)` marker. -/
def goSprintf (format : String) (args : List GoVal) : String :=
  let r := sprintfAux format.toList args
  String.mk r.1 ++
    (if r.2.isEmpty then ""
     else "%!(EXTRA " ++ String.intercalate ", " (r.2.map goVerb) ++ ")")

/-- `writeArgs` (logger.go): walk the flattened list two positions at a
time; a pair whose key is not a `string` is skipped whole; a lone trailing
key (odd tail) is rendered by `writeKeyValue` with the literal
`"(MISSING)"` value; every emitted pair is preceded by one space. -/
def writeArgs : List GoVal → String
  | [] => ""
  | [GoVal.str k] => " " ++ k ++ "=\"(MISSING)\""
  | [GoVal.other _] => ""
  | GoVal.str k :: v :: rest => " " ++ k ++ "=" ++ renderVal v ++ writeArgs rest
  | GoVal.other _ :: _ :: rest => writeArgs rest

/-- `writeKeyValue(b, args, 0, len(args))` as unstructuredLog calls it on
the head of a non-empty list: the unchecked type assertion
`args[i].(string)` panics when the head is not a `string`. -/
def writeKeyValueHead : List GoVal → Except String String
  | [] => .error "runtime error: index out of range"
  | GoVal.other r :: _ =>
    .error ("interface conversion: interface is " ++ r ++ ", not string")
  | [GoVal.str k] => .ok (k ++ "=\"(MISSING)\"")
  | GoVal.str k :: v :: _ => .ok (k ++ "=" ++ renderVal v)

/-- Go slice expression `xs[2:]`: panics when `len(xs) < 2`. -/
def goSliceFrom2 (xs : List GoVal) : Except String (List GoVal) :=
  if xs.length < 2 then .error "runtime error: slice bounds out of range"
  else .ok (xs.drop 2)

/-- Which emission strategy the `emit` function field of a `Logger` holds:
`structuredLog` or `unstructuredLog`. -/
inductive EmitKind where
  | structured
  | unstructured
  deriving DecidableEq, Repr

/-- Embedding of the `Logger` struct (logger.go).  `ctx` is the bound
`context.Context`, represented by the flat key-value list that
`telemetry.KeyValuesFromContext` extracts from it; `metric` is the attached
`telemetry.Metric`, represented by an identifier; `level` is the shared
`*int32` level cell, represented by an index into the `World`'s cell heap;
`writer` is the `io.Writer`, represented by an identifier tagging output
lines; the `now` function field is represented by the `World`'s clock. -/
structure Logger where
  ctx : List GoVal
  args : List GoVal
  metric : Option Nat
  name : String
  description : String
  level : Nat
  writer : Nat
  emit : EmitKind
  deriving DecidableEq, Repr

/-- A wall-clock instant as `structuredLog`/`unstructuredLog` consume it. -/
structure DateTime where
  year : Nat
  month : Nat
  day : Nat
  hour : Nat
  minute : Nat
  second : Nat
  deriving DecidableEq, Repr

/-- The mutable state the package touches: the heap of shared level cells,
the registry map, the record of `Metric.RecordContext` calls (metric id and
amount, in call order) and the lines written to sinks (writer id and line,
in write order). -/
structure World where
  now : DateTime
  cells : List Level
  registry : List (String × Logger)
  records : List (Nat × Nat)
  out : List (Nat × String)
  deriving DecidableEq, Repr

/-- Append one line to a sink. -/
def World.writeOut (w : World) (writer : Nat) (line : String) : World :=
  { w with out := w.out ++ [(writer, line)] }

/-- Result of a call that may panic: `ok` carries the final state, `error`
carries the panic text and the state at the point of the panic. -/
abbrev EmitResult := Except (String × World) World

/-- The state left behind by a call, whether or not it panicked. -/
def resWorld : EmitResult → World
  | .ok w => w
  | .error (_, w) => w

/-- `newLogger` (logger.go): fresh logger with background context, no args,
no metric, a freshly allocated level cell holding `LevelInfo`, the stdout
writer and the `structuredLog` emit function. -/
def newLogger (name description : String) (w : World) : Logger × World :=
  ({ ctx := []
     args := []
     metric := Option.none
     name := name
     description := description
     level := w.cells.length
     writer := 0
     emit := EmitKind.structured },
   { w with cells := w.cells ++ [Level.info] })

/-- `newUnstructured` (unstructured.go): `newLogger` with the emit function
replaced by `unstructuredLog`. -/
def newUnstructured (name description : String) (w : World) : Logger × World :=
  let p := newLogger name description w
  ({ p.1 with emit := EmitKind.unstructured }, p.2)

/-- `Logger.Name`. -/
def Logger.Name (l : Logger) : String := l.name

/-- `Logger.Description`. -/
def Logger.Description (l : Logger) : String := l.description

/-- `Logger.Level`: atomic load of the shared level cell. -/
def Logger.Level (l : Logger) (w : World) : Level :=
  w.cells.getD l.level Level.none

/-- `Logger.SetLevel`: atomic store into the shared level cell. -/
def Logger.SetLevel (l : Logger) (level : Tlog.Level) (w : World) : World :=
  { w with cells := w.cells.set l.level level }

/-- `Logger.enabled`: `level <= l.Level()`. -/
def Logger.enabled (l : Logger) (level : Tlog.Level) (w : World) : Bool :=
  Level.le level (l.Level w)

/-- `Logger.clone` (logger.go): copy every field, duplicating the backing
storage of `args`. -/
def Logger.clone (l : Logger) : Logger :=
  { ctx := l.ctx
    args := l.args
    metric := l.metric
    name := l.name
    description := l.description
    level := l.level
    writer := l.writer
    emit := l.emit }

/-- The `for i := 0; i < len(keyValues); i += 2` loop of `Logger.With`:
keep the pair when the key is a `string`, drop it whole otherwise.  `With`
only calls it on an even-length list. -/
def filterPairs : List GoVal → List GoVal
  | GoVal.str k :: v :: rest => GoVal.str k :: v :: filterPairs rest
  | GoVal.other _ :: _ :: rest => filterPairs rest
  | _ => []

/-- `Logger.With` (logger.go): no-op on an empty list; otherwise pad an
odd-length list with the `"(MISSING)"` sentinel, clone, and append the
string-keyed pairs to the clone's args. -/
def Logger.With (l : Logger) (keyValues : List GoVal) : Logger :=
  if keyValues.length = 0 then l
  else
    let kvs := if keyValues.length % 2 ≠ 0
               then keyValues ++ [GoVal.str "(MISSING)"]
               else keyValues
    { l.clone with args := l.args ++ filterPairs kvs }

/-- `Logger.Context` (logger.go): clone with the bound context replaced. -/
def Logger.Context (l : Logger) (ctx : List GoVal) : Logger :=
  { l.clone with ctx := ctx }

/-- `Logger.Metric` (logger.go): clone with the metric replaced. -/
def Logger.Metric (l : Logger) (m : Option Nat) : Logger :=
  { l.clone with metric := m }

/-- `Logger.Writer` (logger.go): clone with the writer replaced. -/
def Logger.Writer (l : Logger) (writer : Nat) : Logger :=
  { l.clone with writer := writer }

/-- The fixed prefix both formatters print with
`%d/%02d/%02d %02d:%02d:%02d`. -/
def timeStr (t : DateTime) : String :=
  Nat.repr t.year ++ "/" ++ pad2 t.month ++ "/" ++ pad2 t.day ++ " " ++
    pad2 t.hour ++ ":" ++ pad2 t.minute ++ ":" ++ pad2 t.second

/-- The ` error="..."` suffix `structuredLog` appends when an error was
supplied (the error text is written raw, without `%q`). -/
def errorSuffix : Option String → String
  | Option.none => ""
  | Option.some e => " error=\"" ++ e ++ "\""

/-- The `time=... level=... scope=... msg=...` header of `structuredLog`
(`time="%d/%02d/%02d %02d:%02d:%02d" level=%s scope=%q msg=%q`). -/
def structuredHeader (t : DateTime) (level : Level) (name msg : String) : String :=
  "time=\"" ++ timeStr t ++ "\" level=" ++ level.toString ++
    " scope=" ++ goQuote name ++ " msg=" ++ goQuote msg

/-- `structuredLog` (logger.go): header, then the context-derived pairs,
the scope-accumulated pairs and the call-site pairs via `writeArgs`, then
the error suffix and a newline. -/
def structuredLog (l : Logger) (level : Level) (msg : String) (err : Option String)
    (keyValues : List GoVal) (t : DateTime) : String :=
  structuredHeader t level l.name msg ++
    writeArgs l.ctx ++ writeArgs l.args ++ writeArgs keyValues ++
    errorSuffix err ++ "\n"

/-- The prefix `unstructuredLog` prints with the constant format string
`"%d/%02d/%02d %02d:%02d:%02d  %-5v\t%-10s\t"`. -/
def unstructuredHeader (t : DateTime) (level : Level) (name : String) : String :=
  timeStr t ++ "  " ++ padRight level.toString 5 ++ "\t" ++ padRight name 10 ++ "\t"

/-- `unstructuredLog` (unstructured.go): header, then the message formatted
printf-style against the call-site args (with the error, if any, appended
as the final argument), then a bracketed suffix built from the
context-derived and scope-accumulated pairs when at least one exists.  The
bracket's first pair goes through `writeKeyValue` directly — without the
string-key check — and the rest through `xs[2:]` slicing, so both can
panic; a panic aborts the call before anything reaches the writer. -/
def unstructuredLog (l : Logger) (level : Level) (msg : String) (err : Option String)
    (keyValues : List GoVal) (t : DateTime) : Except String String := do
  let kvs := match err with
    | Option.some e => keyValues ++ [GoVal.other e]
    | Option.none => keyValues
  let body := goSprintf msg kvs
  let fromCtx := l.ctx
  let ctxPart ←
    if fromCtx.length > 0 then do
      let h ← writeKeyValueHead fromCtx
      let rest ← goSliceFrom2 fromCtx
      pure (" [" ++ h ++ writeArgs rest)
    else pure ""
  let argsPart ←
    if l.args.length > 0 then
      if fromCtx.length > 0 then pure (writeArgs l.args)
      else do
        let h ← writeKeyValueHead l.args
        let rest ← goSliceFrom2 l.args
        pure (" [" ++ h ++ writeArgs rest)
    else pure ""
  let closing := if fromCtx.length > 0 ∨ l.args.length > 0 then "]" else ""
  pure (unstructuredHeader t level l.name ++ body ++ ctxPart ++ argsPart ++ closing ++ "\n")

/-- Dispatch on the `emit` function field and write the produced line to
the logger's writer; a panic inside `unstructuredLog` leaves the sink
untouched. -/
def Logger.emitLine (l : Logger) (level : Tlog.Level) (msg : String) (err : Option String)
    (keyValues : List GoVal) (w : World) : EmitResult :=
  match l.emit with
  | EmitKind.structured =>
    .ok (w.writeOut l.writer (structuredLog l level msg err keyValues w.now))
  | EmitKind.unstructured =>
    match unstructuredLog l level msg err keyValues w.now with
    | .ok line => .ok (w.writeOut l.writer line)
    | .error e => .error (e, w)

/-- `l.metric.RecordContext(l.ctx, 1)` when a metric is attached. -/
def Logger.recordMetric (l : Logger) (w : World) : World :=
  match l.metric with
  | Option.none => w
  | Option.some m => { w with records := w.records ++ [(m, 1)] }

/-- `Logger.Debug` (logger.go): level gate only, no metric. -/
def Logger.Debug (l : Logger) (msg : String) (keyValues : List GoVal) (w : World) :
    EmitResult :=
  if ¬ l.enabled Level.debug w then .ok w
  else l.emitLine Level.debug msg Option.none keyValues w

/-- `Logger.Info` (logger.go): record the metric unconditionally, then the
level gate, then emit. -/
def Logger.Info (l : Logger) (msg : String) (keyValues : List GoVal) (w : World) :
    EmitResult :=
  let w₁ := l.recordMetric w
  if ¬ l.enabled Level.info w₁ then .ok w₁
  else l.emitLine Level.info msg Option.none keyValues w₁

/-- `Logger.Error` (logger.go): record the metric unconditionally, then the
level gate, then emit with the error. -/
def Logger.Error (l : Logger) (msg : String) (err : Option String)
    (keyValues : List GoVal) (w : World) : EmitResult :=
  let w₁ := l.recordMetric w
  if ¬ l.enabled Level.error w₁ then .ok w₁
  else l.emitLine Level.error msg err keyValues w₁

/-- Go map assignment `r.loggers[name] = logger`: insert or replace. -/
def regSet (m : List (String × Logger)) (name : String) (l : Logger) :
    List (String × Logger) :=
  (name, l) :: m.filter fun p => p.1 ≠ name

/-- `registry.GetLogger` / the package-level `GetLogger`: map lookup,
`nil` on a miss. -/
def GetLogger (name : String) (w : World) : Option Logger :=
  w.registry.lookup name

/-- `Register` (registry.go): return the existing logger when the name is
taken, otherwise allocate a structured logger and insert it under its
name. -/
def Register (name description : String) (w : World) : Logger × World :=
  match GetLogger name w with
  | Option.some l => (l, w)
  | Option.none =>
    let p := newLogger name description w
    (p.1, { p.2 with registry := regSet p.2.registry p.1.Name p.1 })

/-- `RegisterUnstructured` (registry.go): same idempotency as `Register`
but allocating the unstructured variant. -/
def RegisterUnstructured (name description : String) (w : World) : Logger × World :=
  match GetLogger name w with
  | Option.some l => (l, w)
  | Option.none =>
    let p := newUnstructured name description w
    (p.1, { p.2 with registry := regSet p.2.registry p.1.Name p.1 })

/-- The key-value pairs a flattened argument list contributes to a
structured line, in order: string-keyed pairs are kept (duplicates and
all), non-string keys drop their pair, and a lone trailing key is paired
with the `"(MISSING)"` sentinel. -/
def toPairs : List GoVal → List (String × GoVal)
  | [] => []
  | [GoVal.str k] => [(k, GoVal.str "(MISSING)")]
  | [GoVal.other _] => []
  | GoVal.str k :: v :: rest => (k, v) :: toPairs rest
  | GoVal.other _ :: _ :: rest => toPairs rest

/-- Render a pair list the way `writeArgs` prints it: each pair as
` key=value`. -/
def renderPairs : List (String × GoVal) → String
  | [] => ""
  | p :: ps => " " ++ p.1 ++ "=" ++ renderVal p.2 ++ renderPairs ps

theorem renderVal_missing : renderVal (GoVal.str "(MISSING)") = "\"(MISSING)\"" := by
  decide

theorem writeArgs_eq_renderPairs (xs : List GoVal) :
    writeArgs xs = renderPairs (toPairs xs) := by
  induction xs using writeArgs.induct <;>
    simp [writeArgs, toPairs, renderPairs, renderVal_missing, String.append_assoc, *]

theorem renderPairs_append (a b : List (String × GoVal)) :
    renderPairs (a ++ b) = renderPairs a ++ renderPairs b := by
  induction a with
  | nil => simp [renderPairs]
  | cons p ps ih => simp [renderPairs, ih, String.append_assoc]

theorem lookup_regSet_self (m : List (String × Logger)) (n : String) (l : Logger) :
    (regSet m n l).lookup n = Option.some l := by
  simp [regSet, List.lookup]

theorem getD_append_length {α : Type} (xs : List α) (v d : α) :
    (xs ++ [v]).getD xs.length d = v := by
  induction xs with
  | nil => rfl
  | cons x xs ih => simp only [List.getD] at ih ⊢; simp [ih]

theorem getD_set_self {α : Type} (xs : List α) (i : Nat) (v d : α)
    (h : i < xs.length) : (xs.set i v).getD i d = v := by
  induction xs generalizing i with
  | nil => simp at h
  | cons x xs ih =>
    cases i with
    | zero => rfl
    | succ j => simpa [List.getD] using ih j (Nat.lt_of_succ_lt_succ h)

/-- A call wrote exactly one line to a sink. -/
def wroteLine (r : EmitResult) (w : World) : Prop :=
  (resWorld r).out.length = w.out.length + 1

theorem recordMetric_cells (l : Logger) (w : World) :
    (l.recordMetric w).cells = w.cells := by
  cases h : l.metric <;> simp [Logger.recordMetric, h]

theorem recordMetric_out (l : Logger) (w : World) :
    (l.recordMetric w).out = w.out := by
  cases h : l.metric <;> simp [Logger.recordMetric, h]

theorem recordMetric_now (l : Logger) (w : World) :
    (l.recordMetric w).now = w.now := by
  cases h : l.metric <;> simp [Logger.recordMetric, h]

theorem Level_recordMetric (l l' : Logger) (w : World) :
    l.Level (l'.recordMetric w) = l.Level w := by
  simp [Logger.Level, recordMetric_cells]

theorem emitLine_records (l : Logger) (level : Tlog.Level) (msg : String)
    (err : Option String) (kvs : List GoVal) (w : World) :
    (resWorld (l.emitLine level msg err kvs w)).records = w.records := by
  unfold Logger.emitLine
  cases l.emit
  · simp [resWorld, World.writeOut]
  · cases h : unstructuredLog l level msg err kvs w.now <;>
      simp [resWorld, World.writeOut]

theorem emitLine_structured_ok (l : Logger) (hl : l.emit = EmitKind.structured)
    (level : Tlog.Level) (msg : String) (err : Option String) (kvs : List GoVal)
    (w : World) :
    l.emitLine level msg err kvs w =
      .ok (w.writeOut l.writer (structuredLog l level msg err kvs w.now)) := by
  simp [Logger.emitLine, hl]

theorem recordMetric_records (l : Logger) (w : World) (m : Nat)
    (hm : l.metric = Option.some m) :
    (l.recordMetric w).records = w.records ++ [(m, 1)] := by
  simp [Logger.recordMetric, hm]

/-- Fixed instant and fresh worlds/loggers used by the concrete witnesses. -/
def sampleTime : DateTime := ⟨2021, 12, 9, 17, 37, 46⟩

def sampleWorld : World := ⟨sampleTime, [Level.info], [], [], []⟩

def emptyWorld : World := ⟨sampleTime, [], [], [], []⟩

def sampleLogger : Logger :=
  ⟨[], [], Option.none, "mylogger", "d", 0, 0, EmitKind.structured⟩

def sampleUnstructured : Logger := { sampleLogger with emit := EmitKind.unstructured }

def badCtxLogger : Logger :=
  { sampleUnstructured with ctx := [GoVal.other "1", GoVal.str "v"] }

def metricLogger : Logger := { sampleLogger with metric := Option.some 7 }

/-- C9: for every `Level` in the enum, `String()` yields the canonical
lowercase token among none/error/info/debug and `AsLevel` maps that token
back to the same level with `ok = true`; for every string outside the
token set, `AsLevel` reports `ok = false` rather than defaulting or
crashing. -/
theorem level_string_roundtrip :
    (∀ l : Level, l.toString ∈ (["none", "error", "info", "debug"] : List String) ∧
      AsLevel l.toString = (l, true)) ∧
    ∀ s : String, s ∉ (["none", "error", "info", "debug"] : List String) →
      (AsLevel s).2 = false := by
  constructor
  · intro l
    cases l <;> exact ⟨by decide, by decide⟩
  · intro s hs
    simp only [List.mem_cons, List.not_mem_nil, or_false] at hs
    push_neg at hs
    simp [AsLevel, hs.1, hs.2.1, hs.2.2.1, hs.2.2.2]

/-- Witness for C9 at the unrecognized token `"warn"`. -/
theorem level_string_roundtrip_witness :
    "warn" ∉ (["none", "error", "info", "debug"] : List String) ∧
      (AsLevel "warn").2 = false :=
  ⟨by decide, level_string_roundtrip.2 "warn" (by decide)⟩

/-- C3: a second `Register` under the same name returns the very logger the
first call returned and stored — value and state are untouched, so no new
logger is allocated, whatever the second description is. -/
theorem register_reference_identity (w0 : World) (n d1 d2 : String) :
    Register n d2 (Register n d1 w0).2 = ((Register n d1 w0).1, (Register n d1 w0).2) := by
  cases h : GetLogger n w0 with
  | some l =>
    simp [Register, h]
  | none =>
    simp only [GetLogger] at h
    simp [Register, GetLogger, h, newLogger, Logger.Name, lookup_regSet_self]

/-- C5: a structured emission renders the header followed by exactly the
key-value pairs of the bound context, then the `With`-accumulated pairs,
then the call-site pairs, in that order, keeping every duplicate (the pair
lists are concatenated, never merged or deduplicated). -/
theorem structured_merge_order (l : Logger) (level : Tlog.Level) (msg : String)
    (err : Option String) (keyValues : List GoVal) (t : DateTime) :
    structuredLog l level msg err keyValues t =
      structuredHeader t level l.name msg ++
        renderPairs (toPairs l.ctx ++ toPairs l.args ++ toPairs keyValues) ++
        errorSuffix err ++ "\n" := by
  simp [structuredLog, renderPairs_append, writeArgs_eq_renderPairs, String.append_assoc]

/-- C2: with a metric attached, `Info` and `Error` record amount 1 exactly
once regardless of the configured level (the record happens before the
gate, so it survives suppression and even an emission panic), while
`Debug` never records. -/
theorem metric_unconditional (l : Logger) (w : World) (msg : String)
    (err : Option String) (keyValues : List GoVal) (m : Nat)
    (hm : l.metric = Option.some m) :
    (resWorld (l.Info msg keyValues w)).records = w.records ++ [(m, 1)] ∧
    (resWorld (l.Error msg err keyValues w)).records = w.records ++ [(m, 1)] ∧
    (resWorld (l.Debug msg keyValues w)).records = w.records := by
  refine ⟨?_, ?_, ?_⟩
  · simp only [Logger.Info]
    split
    · simp [resWorld, recordMetric_records l w m hm]
    · rw [emitLine_records, recordMetric_records l w m hm]
  · simp only [Logger.Error]
    split
    · simp [resWorld, recordMetric_records l w m hm]
    · rw [emitLine_records, recordMetric_records l w m hm]
  · simp only [Logger.Debug]
    split
    · simp [resWorld]
    · rw [emitLine_records]

/-- Witness for C2 on a logger carrying metric 7. -/
theorem metric_unconditional_witness :
    metricLogger.metric = Option.some 7 ∧
    ((resWorld (metricLogger.Info "m" [] sampleWorld)).records =
        sampleWorld.records ++ [(7, 1)] ∧
      (resWorld (metricLogger.Error "m" (Option.some "boom") [] sampleWorld)).records =
        sampleWorld.records ++ [(7, 1)] ∧
      (resWorld (metricLogger.Debug "m" [] sampleWorld)).records =
        sampleWorld.records) :=
  ⟨rfl, metric_unconditional metricLogger sampleWorld "m" (Option.some "boom") [] 7 rfl⟩

/-- C8 fails on the code: an unstructured logger whose bound context's
key-value list starts with a non-string key panics inside `writeKeyValue`
(the `args[i].(string)` assertion), because `unstructuredLog` calls it on
the context head without the string check that `writeArgs` performs — the
panic escapes the emission call instead of formatting degrading. -/
theorem unstructured_nonstring_ctx_panics :
    badCtxLogger.Info "m" [] sampleWorld =
      .error ("interface conversion: interface is 1, not string", sampleWorld) ∧
    (∀ (l : Logger) (w : World) (msg : String) (err : Option String)
        (kvs : List GoVal), l.emit = EmitKind.structured →
      (∃ w', l.Info msg kvs w = .ok w') ∧
      (∃ w', l.Error msg err kvs w = .ok w') ∧
      (∃ w', l.Debug msg kvs w = .ok w')) := by
  refine ⟨rfl, ?_⟩
  intro l w msg err kvs hl
  refine ⟨?_, ?_, ?_⟩
  · simp only [Logger.Info]
    split
    · exact ⟨_, rfl⟩
    · exact ⟨_, emitLine_structured_ok l hl Level.info msg Option.none kvs _⟩
  · simp only [Logger.Error]
    split
    · exact ⟨_, rfl⟩
    · exact ⟨_, emitLine_structured_ok l hl Level.error msg err kvs _⟩
  · simp only [Logger.Debug]
    split
    · exact ⟨_, rfl⟩
    · exact ⟨_, emitLine_structured_ok l hl Level.debug msg Option.none kvs _⟩

/-- Witness for the universally quantified half of the C8 theorem, at a
concrete structured logger. -/
theorem unstructured_nonstring_ctx_panics_witness :
    sampleLogger.emit = EmitKind.structured ∧
      (∃ w', sampleLogger.Info "m" [] sampleWorld = .ok w') :=
  ⟨rfl, (unstructured_nonstring_ctx_panics.2 sampleLogger sampleWorld "m"
      Option.none [] rfl).1⟩

theorem Debug_gate (l : Logger) (hl : l.emit = EmitKind.structured)
    (msg : String) (kvs : List GoVal) (w : World) :
    wroteLine (l.Debug msg kvs w) w ↔ Level.le Level.debug (l.Level w) = true := by
  by_cases hg : Level.le Level.debug (l.Level w) = true <;>
    simp [Logger.Debug, Logger.enabled, hg, emitLine_structured_ok l hl,
          wroteLine, resWorld, World.writeOut]

theorem Info_gate (l : Logger) (hl : l.emit = EmitKind.structured)
    (msg : String) (kvs : List GoVal) (w : World) :
    wroteLine (l.Info msg kvs w) w ↔ Level.le Level.info (l.Level w) = true := by
  by_cases hg : Level.le Level.info (l.Level w) = true <;>
    simp [Logger.Info, Logger.enabled, Level_recordMetric, hg,
          emitLine_structured_ok l hl, wroteLine, resWorld, World.writeOut,
          recordMetric_out]

theorem Error_gate (l : Logger) (hl : l.emit = EmitKind.structured)
    (msg : String) (err : Option String) (kvs : List GoVal) (w : World) :
    wroteLine (l.Error msg err kvs w) w ↔ Level.le Level.error (l.Level w) = true := by
  by_cases hg : Level.le Level.error (l.Level w) = true <;>
    simp [Logger.Error, Logger.enabled, Level_recordMetric, hg,
          emitLine_structured_ok l hl, wroteLine, resWorld, World.writeOut,
          recordMetric_out]

theorem emitLine_ok_length (l : Logger) (level : Tlog.Level) (msg : String)
    (err : Option String) (kvs : List GoVal) (w w' : World)
    (h : l.emitLine level msg err kvs w = .ok w') :
    w'.out.length = w.out.length + 1 := by
  unfold Logger.emitLine at h
  cases he : l.emit <;> rw [he] at h
  · injection h with h
    subst h
    simp [World.writeOut]
  · cases hu : unstructuredLog l level msg err kvs w.now <;> rw [hu] at h
    · simp at h
    · injection h with h
      subst h
      simp [World.writeOut]

theorem Debug_ok_gate (l : Logger) (msg : String) (kvs : List GoVal) (w w' : World)
    (hok : l.Debug msg kvs w = .ok w') :
    wroteLine (l.Debug msg kvs w) w ↔ Level.le Level.debug (l.Level w) = true := by
  by_cases hg : Level.le Level.debug (l.Level w) = true
  · have heq : l.Debug msg kvs w = l.emitLine Level.debug msg Option.none kvs w := by
      simp [Logger.Debug, Logger.enabled, hg]
    rw [heq] at hok
    have hlen := emitLine_ok_length l _ _ _ _ _ _ hok
    simp [wroteLine, heq, hok, resWorld, hlen, hg]
  · simp [Logger.Debug, Logger.enabled, hg, wroteLine, resWorld]

theorem Info_ok_gate (l : Logger) (msg : String) (kvs : List GoVal) (w w' : World)
    (hok : l.Info msg kvs w = .ok w') :
    wroteLine (l.Info msg kvs w) w ↔ Level.le Level.info (l.Level w) = true := by
  by_cases hg : Level.le Level.info (l.Level w) = true
  · have heq : l.Info msg kvs w =
        l.emitLine Level.info msg Option.none kvs (l.recordMetric w) := by
      simp [Logger.Info, Logger.enabled, Level_recordMetric, hg]
    rw [heq] at hok
    have hlen := emitLine_ok_length l _ _ _ _ _ _ hok
    rw [recordMetric_out] at hlen
    simp [wroteLine, heq, hok, resWorld, hlen, hg]
  · simp [Logger.Info, Logger.enabled, Level_recordMetric, hg, wroteLine,
          resWorld, recordMetric_out]

theorem Error_ok_gate (l : Logger) (msg : String) (err : Option String)
    (kvs : List GoVal) (w w' : World) (hok : l.Error msg err kvs w = .ok w') :
    wroteLine (l.Error msg err kvs w) w ↔ Level.le Level.error (l.Level w) = true := by
  by_cases hg : Level.le Level.error (l.Level w) = true
  · have heq : l.Error msg err kvs w =
        l.emitLine Level.error msg err kvs (l.recordMetric w) := by
      simp [Logger.Error, Logger.enabled, Level_recordMetric, hg]
    rw [heq] at hok
    have hlen := emitLine_ok_length l _ _ _ _ _ _ hok
    rw [recordMetric_out] at hlen
    simp [wroteLine, heq, hok, resWorld, hlen, hg]
  · simp [Logger.Error, Logger.enabled, Level_recordMetric, hg, wroteLine,
          resWorld, recordMetric_out]

theorem Debug_suppressed (l : Logger) (msg : String) (kvs : List GoVal) (w : World)
    (hg : Level.le Level.debug (l.Level w) = false) :
    (resWorld (l.Debug msg kvs w)).out = w.out := by
  simp [Logger.Debug, Logger.enabled, hg, resWorld]

theorem Info_suppressed (l : Logger) (msg : String) (kvs : List GoVal) (w : World)
    (hg : Level.le Level.info (l.Level w) = false) :
    (resWorld (l.Info msg kvs w)).out = w.out := by
  simp [Logger.Info, Logger.enabled, Level_recordMetric, hg, resWorld,
        recordMetric_out]

theorem Error_suppressed (l : Logger) (msg : String) (err : Option String)
    (kvs : List GoVal) (w : World)
    (hg : Level.le Level.error (l.Level w) = false) :
    (resWorld (l.Error msg err kvs w)).out = w.out := by
  simp [Logger.Error, Logger.enabled, Level_recordMetric, hg, resWorld,
        recordMetric_out]

theorem suppressed_at_none (l : Logger) (w : World) (msg : String)
    (err : Option String) (kvs : List GoVal) (hn : l.Level w = Level.none) :
    (resWorld (l.Debug msg kvs w)).out = w.out ∧
    (resWorld (l.Info msg kvs w)).out = w.out ∧
    (resWorld (l.Error msg err kvs w)).out = w.out := by
  refine ⟨?_, ?_, ?_⟩ <;>
    simp [Logger.Debug, Logger.Info, Logger.Error, Logger.enabled,
          Level_recordMetric, hn, Level.le, Level.toNat, resWorld, recordMetric_out]

/-- C1 fails as stated: on an unstructured logger whose bound context's
key-value list starts with a non-string key, an `Info` call at an enabling
configured level (Info ≤ Info) writes no line at all — emission panics (the
C8 defect) before anything reaches the sink, so "a formatted line is
written iff severity ≤ C" is false for that call. -/
theorem level_gate_cex :
    Level.le Level.info (badCtxLogger.Level sampleWorld) = true ∧
    ¬ wroteLine (badCtxLogger.Info "m" [] sampleWorld) sampleWorld := by
  refine ⟨by decide, ?_⟩
  simp only [wroteLine]
  decide

/-- C1, amended: on a structured logger a call emits exactly one formatted
line iff its severity is at most the configured level (the code's
`level <= Level()` comparison); on any logger — either formatter — a call
whose severity exceeds the configured level never writes text, and a call
that returns normally (does not panic) writes a line iff its severity is at
most the configured level; with `LevelNone` configured no call ever writes
text. -/
theorem level_gate (l : Logger) (w : World) (msg : String) (err : Option String)
    (keyValues : List GoVal) :
    (l.emit = EmitKind.structured →
      ((wroteLine (l.Debug msg keyValues w) w ↔
          Level.le Level.debug (l.Level w) = true) ∧
       (wroteLine (l.Info msg keyValues w) w ↔
          Level.le Level.info (l.Level w) = true) ∧
       (wroteLine (l.Error msg err keyValues w) w ↔
          Level.le Level.error (l.Level w) = true))) ∧
    ((Level.le Level.debug (l.Level w) = false →
        (resWorld (l.Debug msg keyValues w)).out = w.out) ∧
     (Level.le Level.info (l.Level w) = false →
        (resWorld (l.Info msg keyValues w)).out = w.out) ∧
     (Level.le Level.error (l.Level w) = false →
        (resWorld (l.Error msg err keyValues w)).out = w.out)) ∧
    ((∀ w', l.Debug msg keyValues w = .ok w' →
       (wroteLine (l.Debug msg keyValues w) w ↔
          Level.le Level.debug (l.Level w) = true)) ∧
     (∀ w', l.Info msg keyValues w = .ok w' →
       (wroteLine (l.Info msg keyValues w) w ↔
          Level.le Level.info (l.Level w) = true)) ∧
     (∀ w', l.Error msg err keyValues w = .ok w' →
       (wroteLine (l.Error msg err keyValues w) w ↔
          Level.le Level.error (l.Level w) = true))) ∧
    (l.Level w = Level.none →
      (resWorld (l.Debug msg keyValues w)).out = w.out ∧
      (resWorld (l.Info msg keyValues w)).out = w.out ∧
      (resWorld (l.Error msg err keyValues w)).out = w.out) :=
  ⟨fun hl => ⟨Debug_gate l hl msg keyValues w, Info_gate l hl msg keyValues w,
    Error_gate l hl msg err keyValues w⟩,
   ⟨fun hg => Debug_suppressed l msg keyValues w hg,
    fun hg => Info_suppressed l msg keyValues w hg,
    fun hg => Error_suppressed l msg err keyValues w hg⟩,
   ⟨fun w' hok => Debug_ok_gate l msg keyValues w w' hok,
    fun w' hok => Info_ok_gate l msg keyValues w w' hok,
    fun w' hok => Error_ok_gate l msg err keyValues w w' hok⟩,
   fun hn => suppressed_at_none l w msg err keyValues hn⟩

/-- Witness for the amended C1 on a concrete structured logger at level Info. -/
theorem level_gate_witness :
    sampleLogger.emit = EmitKind.structured ∧
    ((wroteLine (sampleLogger.Debug "m" [] sampleWorld) sampleWorld ↔
        Level.le Level.debug (sampleLogger.Level sampleWorld) = true) ∧
     (wroteLine (sampleLogger.Info "m" [] sampleWorld) sampleWorld ↔
        Level.le Level.info (sampleLogger.Level sampleWorld) = true) ∧
     (wroteLine (sampleLogger.Error "m" (Option.some "boom") [] sampleWorld) sampleWorld ↔
        Level.le Level.error (sampleLogger.Level sampleWorld) = true)) :=
  ⟨rfl, (level_gate sampleLogger sampleWorld "m" (Option.some "boom") []).1 rfl⟩

theorem take_append_self {α : Type} (a b : List α) : (a ++ b).take a.length = a := by
  induction a with
  | nil => simp
  | cons x xs ih => simp [ih]

theorem With_shape (l : Logger) (kvs : List GoVal) :
    ∃ extra, l.With kvs = { l with args := l.args ++ extra } := by
  by_cases h : kvs.length = 0
  · exact ⟨[], by simp [Logger.With, h]⟩
  · by_cases h2 : kvs.length % 2 ≠ 0
    · refine ⟨filterPairs (kvs ++ [GoVal.str "(MISSING)"]), ?_⟩
      simp [Logger.With, h, h2, Logger.clone]
    · refine ⟨filterPairs kvs, ?_⟩
      simp [Logger.With, h, h2, Logger.clone]

/-- C4: `With`/`Context`/`Metric` are pure derivations — the receiver value
is untouched — and the derived logger keeps the receiver's level cell (so a
`SetLevel` through any member of the family is observed by every other
member), keeps the sink and the formatter, and owns its argument list:
`Context`/`Metric` copy it verbatim and a later `With` only ever appends,
leaving every existing pair in place. -/
theorem derive_copy_on_write (l : Logger) (kvs kvs₂ ctx : List GoVal)
    (m : Option Nat) (lv : Tlog.Level) (w : World)
    (h : l.level < w.cells.length) :
    ((l.With kvs).level = l.level ∧ (l.Context ctx).level = l.level ∧
      (l.Metric m).level = l.level) ∧
    ((l.With kvs).writer = l.writer ∧ (l.With kvs).emit = l.emit ∧
      (l.Context ctx).writer = l.writer ∧ (l.Context ctx).emit = l.emit ∧
      (l.Metric m).writer = l.writer ∧ (l.Metric m).emit = l.emit) ∧
    ((l.With kvs).ctx = l.ctx ∧ (l.With kvs).metric = l.metric ∧
      (l.Context ctx).args = l.args ∧ (l.Context ctx).metric = l.metric ∧
      (l.Metric m).args = l.args ∧ (l.Metric m).ctx = l.ctx) ∧
    (Logger.Level l (Logger.SetLevel (l.With kvs) lv w) = lv ∧
      Logger.Level (l.With kvs) (Logger.SetLevel l lv w) = lv ∧
      Logger.Level l (Logger.SetLevel (l.Context ctx) lv w) = lv ∧
      Logger.Level l (Logger.SetLevel (l.Metric m) lv w) = lv) ∧
    ((l.With kvs).args.take l.args.length = l.args ∧
      ((l.With kvs).With kvs₂).args.take (l.With kvs).args.length =
        (l.With kvs).args) := by
  obtain ⟨e₁, h₁⟩ := With_shape l kvs
  obtain ⟨e₂, h₂⟩ := With_shape (l.With kvs) kvs₂
  refine ⟨⟨?_, ?_, ?_⟩, ⟨?_, ?_, ?_, ?_, ?_, ?_⟩, ⟨?_, ?_, ?_, ?_, ?_, ?_⟩,
    ⟨?_, ?_, ?_, ?_⟩, ⟨?_, ?_⟩⟩ <;>
    first
      | (rw [h₂]; exact take_append_self _ _)
      | simp [h₁, Logger.Context, Logger.Metric, Logger.clone, Logger.Level,
              Logger.SetLevel, List.getElem?_set_eq_of_lt _ h, take_append_self]

/-- Witness for C4 on a concrete logger whose level cell exists. -/
theorem derive_copy_on_write_witness :
    sampleLogger.level < sampleWorld.cells.length ∧
    Logger.Level sampleLogger
      (Logger.SetLevel (sampleLogger.With [GoVal.str "k", GoVal.str "v"])
        Level.debug sampleWorld) = Level.debug :=
  ⟨by decide,
   (derive_copy_on_write sampleLogger [GoVal.str "k", GoVal.str "v"] [] []
      Option.none Level.debug sampleWorld (by decide)).2.2.2.1.1⟩

/-- C6: a `With` call with an odd argument list behaves exactly as if the
sentinel `"(MISSING)"` had been appended as the tail key's value before
merging; concretely, `With("a","b","c")` followed by a structured emission
renders ` a="b" c="(MISSING)"`, and an odd call-site list renders its tail
key as ` c="(MISSING)"`. -/
theorem with_odd_sentinel (l : Logger) (kvs : List GoVal)
    (h : kvs.length % 2 = 1) :
    l.With kvs = l.With (kvs ++ [GoVal.str "(MISSING)"]) ∧
    structuredLog (sampleLogger.With [GoVal.str "a", GoVal.str "b", GoVal.str "c"])
        Level.info "m" Option.none [] sampleTime =
      "time=\"2021/12/09 17:37:46\" level=info scope=\"mylogger\" msg=\"m\" a=\"b\" c=\"(MISSING)\"\n" ∧
    structuredLog sampleLogger Level.info "m" Option.none [GoVal.str "c"] sampleTime =
      "time=\"2021/12/09 17:37:46\" level=info scope=\"mylogger\" msg=\"m\" c=\"(MISSING)\"\n" := by
  have h0 : ¬ kvs.length = 0 := by omega
  have he : (kvs.length + 1) % 2 = 0 := by omega
  refine ⟨?_, by decide, by decide⟩
  simp [Logger.With, h0, h, he]

/-- Witness for C6 at the odd list `["a", "b", "c"]`. -/
theorem with_odd_sentinel_witness :
    ([GoVal.str "a", GoVal.str "b", GoVal.str "c"] : List GoVal).length % 2 = 1 ∧
    sampleLogger.With [GoVal.str "a", GoVal.str "b", GoVal.str "c"] =
      sampleLogger.With
        ([GoVal.str "a", GoVal.str "b", GoVal.str "c"] ++ [GoVal.str "(MISSING)"]) :=
  ⟨by decide,
   (with_odd_sentinel sampleLogger [GoVal.str "a", GoVal.str "b", GoVal.str "c"]
      (by decide)).1⟩

theorem emitLine_unstructured_plain (l : Logger) (hu : l.emit = EmitKind.unstructured)
    (hctx : l.ctx = []) (hargs : l.args = []) (level : Tlog.Level) (msg : String)
    (err : Option String) (kvs : List GoVal) (w : World) :
    l.emitLine level msg err kvs w =
      .ok (w.writeOut l.writer
        (unstructuredHeader w.now level l.name ++
          goSprintf msg (match err with
            | Option.some e => kvs ++ [GoVal.other e]
            | Option.none => kvs) ++ "\n")) := by
  simp [Logger.emitLine, hu, unstructuredLog, hctx, hargs, String.append_assoc,
        pure, Except.pure, Bind.bind, Except.bind, String.empty_append,
        String.append_empty]

/-- C7, corrected: between the level token and the message the code also
prints the logger name, the separators are tabs, and the 5-wide level field
is left-justified (space-padded on the right), not left-padded — so the
line of the claim (timestamp, two spaces, level left-padded to 5, two
spaces, message) differs from what is actually written. -/
theorem unstructured_plain_line_cex :
    (resWorld (sampleUnstructured.Info "hi %s" [GoVal.str "there"] sampleWorld)).out =
      [(0, unstructuredHeader sampleTime Level.info "mylogger" ++ "hi there" ++ "\n")] ∧
    unstructuredHeader sampleTime Level.info "mylogger" ++ "hi there" ++ "\n" ≠
      timeStr sampleTime ++ "  " ++ " info" ++ "  " ++ "hi there" ++ "\n" := by
  exact ⟨by decide, by decide⟩

/-- C7, amended: an unstructured logger with no bound context pairs and no
`With`-accumulated pairs, at an enabling level, writes for
`Info("hi %s", "there")` exactly the timestamp, two spaces, the level token
left-justified to 5 characters, a tab, the logger name left-justified to
10 characters, a tab, the printf-formatted message `hi there` and a
newline — no bracketed suffix and nothing else. -/
theorem unstructured_plain_line (l : Logger) (w : World)
    (hu : l.emit = EmitKind.unstructured) (hctx : l.ctx = [])
    (hargs : l.args = []) (hen : Level.le Level.info (l.Level w) = true) :
    l.Info "hi %s" [GoVal.str "there"] w =
      .ok ((l.recordMetric w).writeOut l.writer
        (timeStr w.now ++ "  " ++ padRight (Level.toString Level.info) 5 ++ "\t" ++
          padRight l.name 10 ++ "\t" ++ "hi there" ++ "\n")) := by
  have hb : goSprintf "hi %s" [GoVal.str "there"] = "hi there" := by decide
  simp [Logger.Info, Logger.enabled, Level_recordMetric, hen,
        emitLine_unstructured_plain l hu hctx hargs, hb, unstructuredHeader,
        recordMetric_now, String.append_assoc]

/-- Witness for the amended C7 at a concrete unstructured logger. -/
theorem unstructured_plain_line_witness :
    (sampleUnstructured.emit = EmitKind.unstructured ∧
      sampleUnstructured.ctx = [] ∧ sampleUnstructured.args = [] ∧
      Level.le Level.info (sampleUnstructured.Level sampleWorld) = true) ∧
    sampleUnstructured.Info "hi %s" [GoVal.str "there"] sampleWorld =
      .ok ((sampleUnstructured.recordMetric sampleWorld).writeOut
        sampleUnstructured.writer
        (timeStr sampleWorld.now ++ "  " ++ padRight (Level.toString Level.info) 5 ++
          "\t" ++ padRight sampleUnstructured.name 10 ++ "\t" ++ "hi there" ++ "\n")) :=
  ⟨⟨rfl, rfl, rfl, by decide⟩,
   unstructured_plain_line sampleUnstructured sampleWorld rfl rfl rfl (by decide)⟩

theorem Register_miss (n d : String) (w0 : World) (h : GetLogger n w0 = Option.none) :
    Register n d w0 =
      ((newLogger n d w0).1,
       { (newLogger n d w0).2 with
           registry := regSet (newLogger n d w0).2.registry n (newLogger n d w0).1 }) := by
  simp [Register, h, newLogger, Logger.Name]

theorem RegisterUnstructured_miss (n d : String) (w0 : World)
    (h : GetLogger n w0 = Option.none) :
    RegisterUnstructured n d w0 =
      ((newUnstructured n d w0).1,
       { (newUnstructured n d w0).2 with
           registry := regSet (newUnstructured n d w0).2.registry n
             (newUnstructured n d w0).1 }) := by
  simp [RegisterUnstructured, h, newUnstructured, newLogger, Logger.Name]

/-- C10: a logger freshly created by `Register` or `RegisterUnstructured`
starts at `LevelInfo`: before any `SetLevel`, `Info` and `Error` each write
a line while `Debug` writes nothing. -/
theorem register_initial_level (w0 : World) (n d msg : String) (err : Option String)
    (kvs : List GoVal) (h : GetLogger n w0 = Option.none) :
    (Logger.Level (Register n d w0).1 (Register n d w0).2 = Level.info ∧
      wroteLine ((Register n d w0).1.Info msg kvs (Register n d w0).2)
        (Register n d w0).2 ∧
      wroteLine ((Register n d w0).1.Error msg err kvs (Register n d w0).2)
        (Register n d w0).2 ∧
      (resWorld ((Register n d w0).1.Debug msg kvs (Register n d w0).2)).out =
        (Register n d w0).2.out) ∧
    (Logger.Level (RegisterUnstructured n d w0).1 (RegisterUnstructured n d w0).2 =
        Level.info ∧
      wroteLine ((RegisterUnstructured n d w0).1.Info msg kvs
          (RegisterUnstructured n d w0).2) (RegisterUnstructured n d w0).2 ∧
      wroteLine ((RegisterUnstructured n d w0).1.Error msg err kvs
          (RegisterUnstructured n d w0).2) (RegisterUnstructured n d w0).2 ∧
      (resWorld ((RegisterUnstructured n d w0).1.Debug msg kvs
          (RegisterUnstructured n d w0).2)).out =
        (RegisterUnstructured n d w0).2.out) := by
  rw [Register_miss n d w0 h, RegisterUnstructured_miss n d w0 h]
  have hlv : ∀ reg,
      Logger.Level (newLogger n d w0).1
        { (newLogger n d w0).2 with registry := reg } = Level.info := by
    intro reg
    simp [newLogger, Logger.Level, getD_append_length]
  refine ⟨⟨hlv _, ?_, ?_, ?_⟩, ⟨hlv _, ?_, ?_, ?_⟩⟩ <;>
    simp [newLogger, newUnstructured, Logger.Info, Logger.Error, Logger.Debug,
          Logger.recordMetric, Logger.enabled, Logger.Level, getD_append_length,
          Level.le, Level.toNat, Logger.emitLine, unstructuredLog, wroteLine,
          resWorld, World.writeOut, pure, Except.pure, Bind.bind, Except.bind]

/-- Witness for C10 on the empty registry. -/
theorem register_initial_level_witness :
    GetLogger "scope" emptyWorld = Option.none ∧
    Logger.Level (Register "scope" "d" emptyWorld).1
      (Register "scope" "d" emptyWorld).2 = Level.info :=
  ⟨rfl, (register_initial_level emptyWorld "scope" "d" "m" Option.none [] rfl).1.1⟩

end Tlog
